import Mathlib

set_option maxRecDepth 100000

/-!
Shallow embedding of the Concurrent Scan Engine of the Aspen reconnaissance
framework (`src/aspen.py`): the subdomain-enumeration engine
(`AspenFramework.enumerate_subdomains`, lines 83-125) and the port-scan
engine (`AspenFramework.scan_ports`, lines 128-168), together with theorems
checking the specification's claims about them.

Collaborators (DNS resolver, the crt.sh passive source, the scapy `sr1`
raw-probe capability) are passed in as explicit oracles; Python exceptions
raised by a collaborator are modelled as explicit error constructors of the
oracle's result type.  Shared-set mutation from racing worker threads is
modelled as set union over the per-task contributions, which is the
completion-order-independent aggregate the code computes.
-/

namespace Aspen

/-- Constant `DEFAULT_THREADS = 10` (aspen.py line 40). -/
def DEFAULT_THREADS : Int := 10

/-- Python `self.args.threads or DEFAULT_THREADS` (lines 87 and 153): `None`
and `0` are both falsy in Python, so both fall back to the default of 10;
every other integer, negative values included, is kept as supplied. -/
def effectiveThreads (threadsArg : Option Int) : Int :=
  match threadsArg with
  | none => DEFAULT_THREADS
  | some t => if t = 0 then DEFAULT_THREADS else t

/-- Python `str.lower` applied characterwise (ASCII case mapping), as used on
`entry['name_value'].lower()` at line 117. -/
def strLower (s : String) : String := ⟨s.data.map Char.toLower⟩

/-- A DNS resolver capability (`dns.resolver.resolve(name, 'A')`, line 93):
`none` models the call raising (timeout, NXDOMAIN, resolver error), `some l`
models it returning the list `l` of address records. -/
def Resolver : Type := String → Option (List String)

/-- Function `check_subdomain` (lines 90-97): resolve `sub + "." + domain` for address
records; for each answer record add `sub + "." + domain` (verbatim, no case
change) to the shared set; any exception is swallowed by the bare `except`.
This is the contribution of one candidate to the Subdomain Set. -/
def check_subdomain (resolver : Resolver) (domain sub : String) : Finset String :=
  match resolver (sub ++ "." ++ domain) with
  | none => ∅
  | some answers => if answers.isEmpty then ∅ else {sub ++ "." ++ domain}

/-- Aggregate of the wordlist brute-force phase (lines 99-109): one
`check_subdomain` task per wordlist entry is submitted to the pool; the
completions race to insert into the shared `subdomains` set, so the final
content contributed by this phase is the union of the per-candidate
contributions. -/
def bruteSubs (resolver : Resolver) (domain : String) (subs : List String) : Finset String :=
  subs.foldr (fun sub acc => check_subdomain resolver domain sub ∪ acc) ∅

/-- The passive (crt.sh) source's response as observed by
`enumerate_subdomains` (lines 111-121): `err` models `requests.get` raising
(network error / timeout); otherwise an HTTP status code and a body, where
`none` models `response.json()` raising a parse error and `some entries`
models a parsed list of `name_value` fields. -/
inductive PassiveResponse where
  | err : PassiveResponse
  | resp (status : Nat) (body : Option (List String)) : PassiveResponse
deriving DecidableEq

/-- The API-fallback phase (lines 111-121): on a status-200 response with a
parseable body, lower-case each `name_value` and keep exactly the records
ending with `"." ++ domain`; any failure (exception, non-200 status, parse
error) is caught, logged as a warning, and contributes nothing. -/
def passiveSubs (domain : String) (r : PassiveResponse) : Finset String :=
  match r with
  | .err => ∅
  | .resp status body =>
      if status = 200 then
        match body with
        | none => ∅
        | some entries =>
            ((entries.map strLower).filter (fun s => s.endsWith ("." ++ domain))).toFinset
      else ∅

/-- Method `AspenFramework.enumerate_subdomains` (lines 83-125) as a function of its
collaborators.  `wordlist` carries the stripped non-empty lines of the
wordlist file, or `none` when the file does not exist (line 101).  When the
wordlist branch runs, `ThreadPoolExecutor(max_workers=threads)` (line 106)
raises `ValueError` for a non-positive worker count; that exception is not
caught anywhere in the function and propagates to the caller
(`Except.error`). -/
def enumerate_subdomains (resolver : Resolver) (passive : PassiveResponse)
    (threadsArg : Option Int) (domain : String) (wordlist : Option (List String)) :
    Except String (Finset String) :=
  let threads := effectiveThreads threadsArg
  match wordlist with
  | none => .ok (passiveSubs domain passive)
  | some subs =>
      if threads ≤ 0 then .error ("max_workers must be greater than 0")
      else .ok (bruteSubs resolver domain subs ∪ passiveSubs domain passive)

/-- Outcome of one `sr1` raw-probe invocation (lines 137 and 142): the call
raised (`err`, e.g. a permission error creating the raw socket), returned
`None` after the timeout (`noReply`), returned a reply without a TCP layer
(`noTCP`), or returned a reply whose TCP flags field has the given numeric
value (`tcp flags`). -/
inductive ProbeReply where
  | err : ProbeReply
  | noReply : ProbeReply
  | noTCP : ProbeReply
  | tcp (flags : Nat) : ProbeReply
deriving DecidableEq

/-- Worker `scan_port` (lines 134-149) against a primary SYN-probe oracle and a
secondary ACK-probe (`banner`) oracle.  The port is recorded exactly when
the SYN reply has a TCP layer with flags equal to `0x12` (SYN+ACK, line
138); the secondary probe then sets the service label to `"detected"` when
any TCP-layer reply is observed and leaves `"unknown"` otherwise, its
exceptions being swallowed by the inner bare `except` (lines 145-146); any
exception of the primary probe is swallowed by the outer bare `except`
(lines 148-149), recording nothing. -/
def scan_port (probe banner : Nat → ProbeReply) (port : Nat) : Option String :=
  match probe port with
  | .tcp flags =>
      if flags = 0x12 then
        some (match banner port with
              | .tcp _ => "detected"
              | _ => "unknown")
      else none
  | _ => none

/-- The port range scanned (line 132): Python `range(1, 1025)` in top-ports
mode, `range(0, 65536)` otherwise. -/
def ports_list (topPorts : Bool) : List Nat :=
  if topPorts then List.range' 1 1024 else List.range 65536

/-- Method `AspenFramework.scan_ports` (lines 128-168): submit one `scan_port` task
per port of the selected range; racing completions insert into the shared
`open_ports` dict keyed by port, so the result is the association list of
ports whose probe classified them open, each with its service label.
`ThreadPoolExecutor` construction (line 153) raises `ValueError` for a
non-positive worker count, which propagates to the caller. -/
def scan_ports (probe banner : Nat → ProbeReply) (threadsArg : Option Int)
    (topPorts : Bool) : Except String (List (Nat × String)) :=
  if effectiveThreads threadsArg ≤ 0 then .error ("max_workers must be greater than 0")
  else .ok ((ports_list topPorts).filterMap
      (fun port => (scan_port probe banner port).map (fun s => (port, s))))

/-- The ports on which `scan_ports` invokes the primary probe capability:
every port of the selected range is submitted unconditionally (line 154)
and each submitted task performs exactly one `sr1` SYN call, unless
executor construction already failed. -/
def scan_ports_probed (threadsArg : Option Int) (topPorts : Bool) : List Nat :=
  if effectiveThreads threadsArg ≤ 0 then [] else ports_list topPorts


/-- Propositional equality of embedded engine results is decidable, so that
concrete runs can be checked by evaluation. -/
instance decEqExcept {e a : Type} [DecidableEq e] [DecidableEq a] :
    DecidableEq (Except e a) := fun x y =>
  match x, y with
  | .error u, .error v =>
      if h : u = v then .isTrue (by rw [h])
      else .isFalse (by intro hc; cases hc; exact h rfl)
  | .error _, .ok _ => .isFalse (by intro hc; cases hc)
  | .ok _, .error _ => .isFalse (by intro hc; cases hc)
  | .ok u, .ok v =>
      if h : u = v then .isTrue (by rw [h])
      else .isFalse (by intro hc; cases hc; exact h rfl)

theorem mem_check_subdomain {resolver : Resolver} {domain sub x : String} :
    x ∈ check_subdomain resolver domain sub ↔
      (∃ answers, resolver (sub ++ "." ++ domain) = some answers ∧ answers ≠ [])
      ∧ x = sub ++ "." ++ domain := by
  rcases hres : resolver (sub ++ "." ++ domain) with _ | answers
  · simp [check_subdomain, hres]
  · by_cases he : answers = []
    · subst he; simp [check_subdomain, hres]
    · simp [check_subdomain, hres, he, List.isEmpty_iff]

theorem mem_bruteSubs {resolver : Resolver} {domain : String} {W : List String}
    {x : String} :
    x ∈ bruteSubs resolver domain W ↔
      ∃ sub ∈ W,
        (∃ answers, resolver (sub ++ "." ++ domain) = some answers ∧ answers ≠ [])
        ∧ x = sub ++ "." ++ domain := by
  induction W with
  | nil => simp [bruteSubs]
  | cons a l ih =>
      simp only [bruteSubs, List.foldr_cons, Finset.mem_union] at *
      rw [ih, mem_check_subdomain]
      constructor
      · rintro (⟨hres, hx⟩ | ⟨sub, hsub, hres, hx⟩)
        · exact ⟨a, by simp, hres, hx⟩
        · exact ⟨sub, by simp [hsub], hres, hx⟩
      · rintro ⟨sub, hsub, hres, hx⟩
        rcases List.mem_cons.mp hsub with h | h
        · subst h; exact Or.inl ⟨hres, hx⟩
        · exact Or.inr ⟨sub, h, hres, hx⟩

theorem mem_passiveSubs_200 {domain : String} {entries : List String} {x : String} :
    x ∈ passiveSubs domain (.resp 200 (some entries)) ↔
      ∃ e ∈ entries, x = strLower e ∧ x.endsWith ("." ++ domain) := by
  simp only [passiveSubs, if_pos rfl]
  simp [List.mem_filter, List.mem_map]
  constructor
  · rintro ⟨⟨e, he, rfl⟩, hend⟩
    exact ⟨e, he, rfl, hend⟩
  · rintro ⟨e, he, rfl, hend⟩
    exact ⟨⟨e, he, rfl⟩, hend⟩


theorem toLower_toLower (c : Char) : c.toLower.toLower = c.toLower := by
  unfold Char.toLower
  by_cases h : c.toNat ≥ 65 ∧ c.toNat ≤ 90
  · rw [if_pos h]
    have hv : (c.toNat + 32).isValidChar := Or.inl (by omega)
    have ht : (Char.ofNat (c.toNat + 32)).toNat = c.toNat + 32 := by
      unfold Char.ofNat
      rw [dif_pos hv]
      rfl
    rw [ht, if_neg (by omega)]
  · rw [if_neg h, if_neg h]

theorem strLower_append (a b : String) :
    strLower (a ++ b) = strLower a ++ strLower b := by
  apply String.ext
  simp [strLower, String.data_append]

theorem strLower_idem (s : String) : strLower (strLower s) = strLower s := by
  simp only [strLower, List.map_map]
  congr 1
  exact List.map_congr_left (fun c _ => toLower_toLower c)


theorem bruteSubs_perm (resolver : Resolver) (domain : String) {W W' : List String}
    (h : W.Perm W') : bruteSubs resolver domain W = bruteSubs resolver domain W' := by
  induction h with
  | nil => rfl
  | cons x _ ih =>
      simp only [bruteSubs, List.foldr_cons] at *
      rw [ih]
  | swap x y l =>
      simp only [bruteSubs, List.foldr_cons]
      rw [← Finset.union_assoc, ← Finset.union_assoc,
        Finset.union_comm (check_subdomain resolver domain y)
          (check_subdomain resolver domain x)]
  | trans _ _ ih1 ih2 => exact ih1.trans ih2

theorem passiveSubs_failure {domain : String} {r : PassiveResponse}
    (h : r = .err ∨ (∃ st b, r = .resp st b ∧ st ≠ 200) ∨ ∃ st, r = .resp st none) :
    passiveSubs domain r = ∅ := by
  rcases h with rfl | ⟨st, b, rfl, hst⟩ | ⟨st, rfl⟩
  · rfl
  · simp [passiveSubs, hst]
  · by_cases hst : st = 200 <;> simp [passiveSubs, hst]

theorem scan_port_some_iff {probe banner : Nat → ProbeReply} {p : Nat} {s : String} :
    scan_port probe banner p = some s ↔
      probe p = .tcp 0x12
      ∧ s = (match banner p with | .tcp _ => "detected" | _ => "unknown") := by
  rcases hpr : probe p with _ | _ | _ | flags <;> simp [scan_port, hpr]
  by_cases hf : flags = 0x12
  · subst hf; simp [eq_comm]
  · simp [hf]

theorem mem_scan_ports_ok {probe banner : Nat → ProbeReply} {threadsArg : Option Int}
    {topPorts : Bool} {m : List (Nat × String)}
    (hm : scan_ports probe banner threadsArg topPorts = .ok m) {p : Nat} {s : String} :
    (p, s) ∈ m ↔ p ∈ ports_list topPorts ∧ scan_port probe banner p = some s := by
  by_cases hthreads : effectiveThreads threadsArg ≤ 0
  · rw [scan_ports, if_pos hthreads] at hm
    cases hm
  · rw [scan_ports, if_neg hthreads] at hm
    cases hm
    rw [List.mem_filterMap]
    constructor
    · rintro ⟨q, hq, hf⟩
      rcases Option.map_eq_some'.mp hf with ⟨s', hs', heq⟩
      cases heq
      exact ⟨hq, hs'⟩
    · rintro ⟨hq, hs⟩
      exact ⟨p, hq, by rw [hs]; rfl⟩

end Aspen


namespace Aspen

/-- C1: with only a wordlist W supplied (the passive source unavailable), the
Subdomain Set returned by `enumerate_subdomains` is exactly the set of
candidate names `sub ++ "." ++ domain` for entries `sub` of W that the DNS
resolver confirms with a non-empty address-record answer; candidates the
resolver rejects do not appear and no name outside the candidate set
appears. -/
theorem enumerate_wordlist_only_exact (resolver : Resolver) (domain : String)
    (W : List String) (x : String) :
    enumerate_subdomains resolver .err none domain (some W)
      = .ok (bruteSubs resolver domain W)
    ∧ (x ∈ bruteSubs resolver domain W ↔
        ∃ sub ∈ W,
          (∃ answers, resolver (sub ++ "." ++ domain) = some answers ∧ answers ≠ [])
          ∧ x = sub ++ "." ++ domain) := by
  refine ⟨?_, mem_bruteSubs⟩
  have h10 : ¬ effectiveThreads none ≤ 0 := by decide
  simp only [enumerate_subdomains]
  rw [if_neg h10]
  simp [passiveSubs]

/-- C2: the Port Result map returned by `scan_ports` has an entry for a port
exactly when that port is in the scanned range and its primary SYN probe
replied with a TCP layer whose flags equal SYN+ACK (0x12); ports whose probe
yields anything else are absent, not recorded with a closed marker. -/
theorem scan_ports_entry_iff_open (probe banner : Nat → ProbeReply)
    (threadsArg : Option Int) (topPorts : Bool) (m : List (Nat × String))
    (hm : scan_ports probe banner threadsArg topPorts = .ok m) (p : Nat) :
    (∃ s, (p, s) ∈ m) ↔ p ∈ ports_list topPorts ∧ probe p = .tcp 0x12 := by
  constructor
  · rintro ⟨s, hs⟩
    rcases (mem_scan_ports_ok hm).mp hs with ⟨hport, hsome⟩
    exact ⟨hport, (scan_port_some_iff.mp hsome).1⟩
  · rintro ⟨hport, hopen⟩
    exact ⟨_, (mem_scan_ports_ok hm).mpr ⟨hport, scan_port_some_iff.mpr ⟨hopen, rfl⟩⟩⟩

/-- Witness for `scan_ports_entry_iff_open` at a concrete probe stub. -/
theorem scan_ports_entry_iff_open_witness :
    (∃ s, ((80 : Nat), s) ∈ [((80 : Nat), "unknown")]) ↔
      80 ∈ ports_list true
      ∧ (fun p => if p = 80 then ProbeReply.tcp 0x12 else ProbeReply.noReply) 80
          = ProbeReply.tcp 0x12 :=
  scan_ports_entry_iff_open
    (fun p => if p = 80 then ProbeReply.tcp 0x12 else ProbeReply.noReply)
    (fun _ => ProbeReply.noReply) none true [(80, "unknown")] (by decide) 80

/-- C3: `scan_port` classifies a port open (records an entry) exactly when the
SYN-probe reply has a TCP layer with flags equal to 0x12 (SYN and ACK and
nothing else); no reply, an exception, a reply without a TCP layer, and a
TCP reply with any other flag value (extra flags beside SYN+ACK included)
are all classified not open. -/
theorem scan_port_open_iff_synack (probe banner : Nat → ProbeReply) (p : Nat) :
    (∃ s, scan_port probe banner p = some s) ↔ probe p = .tcp 0x12 := by
  constructor
  · rintro ⟨s, hs⟩
    exact (scan_port_some_iff.mp hs).1
  · intro h
    exact ⟨_, scan_port_some_iff.mpr ⟨h, rfl⟩⟩


/-- C4 counterexample: with a raw-probe capability that reports a permission
error on every call (the first included), `scan_ports` does not return a
fatal configuration error: it returns the ordinary empty Port Result map,
and it still submits a probe for every one of the 1024 ports of the
top-ports range rather than stopping after the first failure. -/
theorem scan_ports_perm_error_not_fatal :
    scan_ports (fun _ => ProbeReply.err) (fun _ => ProbeReply.err) none true = .ok []
    ∧ (scan_ports_probed none true).length = 1024 := by
  refine ⟨by decide, ?_⟩
  simp [scan_ports_probed, ports_list, effectiveThreads, DEFAULT_THREADS]

/-- C4 amended: a permission error raised by the raw-probe capability is
swallowed per-port by `scan_port`'s bare `except`; `scan_ports` attempts
every port of the selected range exactly once (no port is retried, and none
is skipped), never surfaces the failure, and returns an empty Port Result
map — indistinguishable from a scan that found nothing. -/
theorem scan_ports_perm_error_swallowed (probe banner : Nat → ProbeReply)
    (topPorts : Bool) (hperm : ∀ p, probe p = .err) :
    scan_ports probe banner none topPorts = .ok []
    ∧ scan_ports_probed none topPorts = ports_list topPorts
    ∧ (scan_ports_probed none topPorts).Nodup := by
  have h10 : ¬ effectiveThreads none ≤ 0 := by decide
  refine ⟨?_, by rw [scan_ports_probed, if_neg h10], ?_⟩
  · rw [scan_ports, if_neg h10]
    congr 1
    rw [List.filterMap_eq_nil_iff]
    intro a _
    simp [scan_port, hperm a]
  · rw [scan_ports_probed, if_neg h10, ports_list]
    by_cases ht : topPorts <;> simp [ht, List.nodup_range', List.nodup_range]

/-- Witness for `scan_ports_perm_error_swallowed` with an always-failing
probe capability over the top-ports range. -/
theorem scan_ports_perm_error_swallowed_witness :
    scan_ports (fun _ => ProbeReply.err) (fun _ => ProbeReply.err) none true = .ok []
    ∧ scan_ports_probed none true = ports_list true
    ∧ (scan_ports_probed none true).Nodup :=
  scan_ports_perm_error_swallowed (fun _ => ProbeReply.err) (fun _ => ProbeReply.err)
    true (fun _ => rfl)

/-- C5: once the primary probe classifies a port open (TCP reply with flags
exactly SYN+ACK), the secondary ACK probe can never remove the port's entry:
the entry is always recorded, its label is `"detected"` exactly when the
secondary probe observed any TCP-layer reply, and when the secondary probe
gets no TCP reply (timeout, exception, or non-TCP reply) the port is still
recorded with label `"unknown"`. -/
theorem scan_port_secondary_only_refines (probe banner : Nat → ProbeReply)
    (p : Nat) (hopen : probe p = .tcp 0x12) :
    scan_port probe banner p ≠ none
    ∧ (scan_port probe banner p = some ("detected") ↔ ∃ f, banner p = .tcp f)
    ∧ ((∀ f, banner p ≠ .tcp f) → scan_port probe banner p = some ("unknown")) := by
  rcases hbn : banner p with _ | _ | _ | f <;>
    simp [scan_port, hopen, hbn]

/-- Witness for `scan_port_secondary_only_refines`: open port 443 whose
secondary probe times out stays recorded as `"unknown"`. -/
theorem scan_port_secondary_only_refines_witness :
    scan_port (fun _ => ProbeReply.tcp 0x12) (fun _ => ProbeReply.noReply) 443 ≠ none
    ∧ (scan_port (fun _ => ProbeReply.tcp 0x12) (fun _ => ProbeReply.noReply) 443
        = some ("detected") ↔ ∃ f, (fun _ => ProbeReply.noReply) 443 = ProbeReply.tcp f)
    ∧ ((∀ f, (fun _ => ProbeReply.noReply) 443 ≠ ProbeReply.tcp f) →
        scan_port (fun _ => ProbeReply.tcp 0x12) (fun _ => ProbeReply.noReply) 443
          = some ("unknown")) :=
  scan_port_secondary_only_refines (fun _ => ProbeReply.tcp 0x12)
    (fun _ => ProbeReply.noReply) 443 rfl


/-- C6: on a 200 passive-source response with a parseable body, a name is in
the passive contribution exactly when it is the lower-casing of a returned
record and ends with `"." ++ domain`; every query failure (network error,
non-200 status, parse error) contributes nothing, is never surfaced to the
caller, and the rest of the enumeration result is still returned. -/
theorem passive_suffix_filter_and_failures (domain : String) (entries : List String)
    (x : String) (resolver : Resolver) (W : List String) (r : PassiveResponse)
    (hfail : r = .err ∨ (∃ st b, r = .resp st b ∧ st ≠ 200) ∨ ∃ st, r = .resp st none) :
    (x ∈ passiveSubs domain (.resp 200 (some entries)) ↔
      ∃ e ∈ entries, x = strLower e ∧ x.endsWith ("." ++ domain))
    ∧ passiveSubs domain r = ∅
    ∧ enumerate_subdomains resolver r none domain (some W)
        = .ok (bruteSubs resolver domain W) := by
  refine ⟨mem_passiveSubs_200, passiveSubs_failure hfail, ?_⟩
  have h10 : ¬ effectiveThreads none ≤ 0 := by decide
  simp only [enumerate_subdomains]
  rw [if_neg h10, passiveSubs_failure hfail, Finset.union_empty]

/-- Witness for `passive_suffix_filter_and_failures`: Scenario C records
(one matching the suffix, one not) and an unreachable passive source. -/
theorem passive_suffix_filter_and_failures_witness :
    ("sub.example.com" ∈ passiveSubs ("example.com")
        (.resp 200 (some ["Sub.Example.COM", "other.net"])) ↔
      ∃ e ∈ ["Sub.Example.COM", "other.net"],
        "sub.example.com" = strLower e
        ∧ ("sub.example.com").endsWith ("." ++ "example.com"))
    ∧ passiveSubs ("example.com") PassiveResponse.err = ∅
    ∧ enumerate_subdomains (fun _ => none) PassiveResponse.err none ("example.com")
        (some ["www"]) = .ok (bruteSubs (fun _ => none) ("example.com") ["www"]) :=
  passive_suffix_filter_and_failures ("example.com") ["Sub.Example.COM", "other.net"]
    "sub.example.com" (fun _ => none) ["www"] PassiveResponse.err (Or.inl rfl)

/-- C7 counterexample: the wordlist path adds candidate names verbatim, with
no lower-casing: a wordlist entry `"WWW"` whose candidate resolves yields
the member `"WWW.example.com"`, which differs from its own lower-casing.
The claimed all-lower-case invariant of the Subdomain Set fails. -/
theorem enumerate_uppercase_member :
    enumerate_subdomains (fun _ => some ["1.2.3.4"]) .err none ("example.com")
      (some ["WWW"]) = .ok {"WWW.example.com"}
    ∧ "WWW.example.com" ∈ ({"WWW.example.com"} : Finset String)
    ∧ strLower ("WWW.example.com") ≠ "WWW.example.com" := by
  refine ⟨by decide, by decide, by decide⟩

/-- C7 amended: the passive-source members are lower-cased by the code, but
wordlist-path members keep the case of the wordlist entry and domain
verbatim; consequently the all-lower-case invariant holds exactly when the
supplied domain and all wordlist entries are already lower-case.
Uniqueness needs no side condition: the result is a set, so it never holds
duplicate names. -/
theorem enumerate_lowercase_when_inputs_lowercase (resolver : Resolver)
    (passive : PassiveResponse) (domain : String) (W : List String) (S : Finset String)
    (hd : strLower domain = domain) (hW : ∀ l ∈ W, strLower l = l)
    (hS : enumerate_subdomains resolver passive none domain (some W) = .ok S) :
    (∀ x ∈ S, strLower x = x) ∧ S.val.Nodup := by
  have h10 : ¬ effectiveThreads none ≤ 0 := by decide
  simp only [enumerate_subdomains] at hS
  rw [if_neg h10] at hS
  injection hS with hS
  subst hS
  refine ⟨?_, Finset.nodup _⟩
  intro x hx
  rcases Finset.mem_union.mp hx with hx | hx
  · rcases mem_bruteSubs.mp hx with ⟨sub, hsub, _, rfl⟩
    have hdot : strLower (".") = "." := by decide
    rw [strLower_append, strLower_append, hW sub hsub, hdot, hd]
  · rcases passive with _ | ⟨st, body⟩
    · exact absurd hx (by simp [passiveSubs])
    · rcases body with _ | entries
      · rw [passiveSubs_failure (Or.inr (Or.inr ⟨st, rfl⟩))] at hx
        exact absurd hx (Finset.not_mem_empty x)
      · by_cases hst : st = 200
        · subst hst
          rcases mem_passiveSubs_200.mp hx with ⟨e, _, rfl, _⟩
          exact strLower_idem e
        · rw [passiveSubs_failure (Or.inr (Or.inl ⟨st, some entries, rfl, hst⟩))] at hx
          exact absurd hx (Finset.not_mem_empty x)

/-- Witness for `enumerate_lowercase_when_inputs_lowercase` on an all
lower-case wordlist and domain. -/
theorem enumerate_lowercase_when_inputs_lowercase_witness :
    (∀ x ∈ ({"www.example.com"} : Finset String), strLower x = x)
    ∧ ({"www.example.com"} : Finset String).val.Nodup :=
  enumerate_lowercase_when_inputs_lowercase (fun _ => some ["1.2.3.4"])
    (.resp 200 (some [])) ("example.com") ["www"] {"www.example.com"}
    (by decide) (by decide) (by decide)


/-- C8 counterexample: a supplied concurrency limit of 0 is not treated as a
fatal configuration error: Python's `threads or DEFAULT_THREADS` replaces
the falsy 0 by the default 10 and the run proceeds, executing every probe
of the range and returning an ordinary result. -/
theorem zero_threads_not_fatal :
    effectiveThreads (some 0) = 10
    ∧ scan_ports (fun _ => ProbeReply.err) (fun _ => ProbeReply.err) (some 0) true
        = .ok []
    ∧ (scan_ports_probed (some 0) true).length = 1024
    ∧ enumerate_subdomains (fun _ => some ["1.2.3.4"]) .err (some 0) ("example.com")
        (some ["www"]) = .ok {"www.example.com"} := by
  refine ⟨by decide, by decide, ?_, by decide⟩
  simp [scan_ports_probed, ports_list, effectiveThreads, DEFAULT_THREADS]

/-- C8 amended: a supplied limit of 0 is silently replaced by the default 10
and the run proceeds normally, while a negative limit is kept, makes
`ThreadPoolExecutor` construction raise before any probe is attempted, and
that error propagates to the caller of either engine (for
`enumerate_subdomains`, whenever the wordlist branch constructs the
executor). -/
theorem negative_threads_abort (t : Int) (ht : t < 0)
    (probe banner : Nat → ProbeReply) (topPorts : Bool) (resolver : Resolver)
    (passive : PassiveResponse) (domain : String) (W : List String) :
    scan_ports probe banner (some t) topPorts
      = .error ("max_workers must be greater than 0")
    ∧ scan_ports_probed (some t) topPorts = []
    ∧ enumerate_subdomains resolver passive (some t) domain (some W)
        = .error ("max_workers must be greater than 0")
    ∧ effectiveThreads (some 0) = DEFAULT_THREADS := by
  have heff : effectiveThreads (some t) = t := by
    simp only [effectiveThreads]
    rw [if_neg (by omega)]
  have hle : effectiveThreads (some t) ≤ 0 := by omega
  refine ⟨by rw [scan_ports, if_pos hle], by rw [scan_ports_probed, if_pos hle], ?_, by decide⟩
  simp only [enumerate_subdomains]
  rw [if_pos hle]

/-- Witness for `negative_threads_abort` at limit `-3`. -/
theorem negative_threads_abort_witness :
    scan_ports (fun _ => ProbeReply.tcp 0x12) (fun _ => ProbeReply.noReply) (some (-3)) true
      = .error ("max_workers must be greater than 0")
    ∧ scan_ports_probed (some (-3)) true = []
    ∧ enumerate_subdomains (fun _ => some ["1.2.3.4"]) PassiveResponse.err (some (-3))
        "example.com" (some ["www"]) = .error ("max_workers must be greater than 0")
    ∧ effectiveThreads (some 0) = DEFAULT_THREADS :=
  negative_threads_abort (-3) (by decide) (fun _ => ProbeReply.tcp 0x12)
    (fun _ => ProbeReply.noReply) true (fun _ => some ["1.2.3.4"]) PassiveResponse.err
    "example.com" ["www"]

/-- C9: against fixed collaborators, `enumerate_subdomains` is a function of
its inputs (two runs on the same domain and wordlist return equal sets),
and the aggregation is completion-order independent: any reordering of the
wordlist tasks — modelling probe completions arriving in any order —
produces the same Subdomain Set. -/
theorem enumerate_completion_order_independent (resolver : Resolver)
    (passive : PassiveResponse) (threadsArg : Option Int) (domain : String)
    (W W' : List String) (hperm : W.Perm W') :
    enumerate_subdomains resolver passive threadsArg domain (some W)
      = enumerate_subdomains resolver passive threadsArg domain (some W') := by
  simp only [enumerate_subdomains]
  rw [bruteSubs_perm resolver domain hperm]

/-- Witness for `enumerate_completion_order_independent` on Scenario A's
wordlist and its reversal. -/
theorem enumerate_completion_order_independent_witness :
    enumerate_subdomains
        (fun n => if n = "www.example.com" then some ["1.2.3.4"] else none)
        PassiveResponse.err none ("example.com") (some ["www", "mail"])
      = enumerate_subdomains
        (fun n => if n = "www.example.com" then some ["1.2.3.4"] else none)
        PassiveResponse.err none ("example.com") (some ["mail", "www"]) :=
  enumerate_completion_order_independent
    (fun n => if n = "www.example.com" then some ["1.2.3.4"] else none)
    PassiveResponse.err none ("example.com") ["www", "mail"] ["mail", "www"] (by decide)

/-- C10: every value stored in the Port Result map is exactly the string
`"unknown"` or the string `"detected"`, and every key is a port of the
selected range: within [1, 1024] in top-ports mode and within [0, 65535] in
full mode. -/
theorem scan_ports_label_and_range (probe banner : Nat → ProbeReply)
    (threadsArg : Option Int) (topPorts : Bool) (m : List (Nat × String))
    (hm : scan_ports probe banner threadsArg topPorts = .ok m)
    (p : Nat) (s : String) (hmem : (p, s) ∈ m) :
    (s = "unknown" ∨ s = "detected")
    ∧ (topPorts = true → 1 ≤ p ∧ p ≤ 1024)
    ∧ (topPorts = false → p ≤ 65535) := by
  rcases (mem_scan_ports_ok hm).mp hmem with ⟨hport, hsome⟩
  have hs := (scan_port_some_iff.mp hsome).2
  refine ⟨?_, ?_, ?_⟩
  · rcases hbn : banner p with _ | _ | _ | f <;> rw [hbn] at hs <;> simp at hs <;> simp [hs]
  · intro htop
    rw [ports_list, if_pos htop] at hport
    have := List.mem_range'_1.mp hport
    omega
  · intro hfull
    rw [ports_list, if_neg (by simp [hfull])] at hport
    have := List.mem_range.mp hport
    omega

/-- Witness for `scan_ports_label_and_range` at a concrete open port with a
responding secondary probe. -/
theorem scan_ports_label_and_range_witness :
    ("detected" = "unknown" ∨ "detected" = "detected")
    ∧ (true = true → 1 ≤ 443 ∧ 443 ≤ 1024)
    ∧ (true = false → 443 ≤ 65535) :=
  scan_ports_label_and_range
    (fun p => if p = 443 then ProbeReply.tcp 0x12 else ProbeReply.err)
    (fun _ => ProbeReply.tcp 0x10) none true [(443, "detected")]
    (by decide) 443 ("detected") (by decide)

end Aspen
